import Mathlib

/-!
Verification development for the Portfolio-to-CV service.

The repository is a small FastAPI application:
* `src/pdf_generator.py` — the full document renderer `generatepdf`;
* `src/main.py` — the `/scrape` pipeline (markdown-fence cleanup, JSON
  parse, session storage) and a reduced renderer, also called `generatepdf`;
* `src/genpdf/pdf_api.py` — the session store `cv_storage` and the
  field-read endpoints.

Python values parsed from JSON are modelled by `JVal`; Python operations
that can raise (`.get` on a non-dict, `str.join` over non-strings,
iteration over a non-list, passing a non-string where the layout engine
needs text) are modelled in the `Except String` monad, so "raises" is an
observable outcome.  Presentational output is modelled as a list of
`Block`s (paragraphs with a style, and spacers) — the argument list the
source hands to reportlab's `doc.build`; the layout engine itself is an
external collaborator and is not modelled.
-/

namespace PortfolioCV

/-- A JSON value as produced by Python's `json.loads`. -/
inductive JVal where
  | null
  | bool (b : Bool)
  | num (n : Int)
  | str (s : String)
  | arr (elts : List JVal)
  | obj (fields : List (String × JVal))

/-- Python truthiness of a JSON value (`if v:`). -/
def truthy : JVal → Bool
  | .null => false
  | .bool b => b
  | .num n => n != 0
  | .str s => s != ""
  | .arr l => !l.isEmpty
  | .obj l => !l.isEmpty

/-- Python `str(v)`, as used by f-string interpolation.  Interpolation never
raises; the renderings of aggregate values are abstracted (no theorem below
depends on them, they are unreachable for well-typed records). -/
def pyStr : JVal → String
  | .null => "None"
  | .bool true => "True"
  | .bool false => "False"
  | .num n => toString n
  | .str s => s
  | .arr _ => "<list>"
  | .obj _ => "<dict>"

/-- Result of a Python computation: either a value or a raised exception
carrying a message. -/
abbrev PyResult (α : Type) := Except String α

@[simp] theorem pyBind_ok {α β : Type} (a : α) (f : α → PyResult β) :
    (Except.ok a >>= f : PyResult β) = f a := rfl

@[simp] theorem pyBind_error {α β : Type} (e : String) (f : α → PyResult β) :
    (Except.error e >>= f : PyResult β) = Except.error e := rfl

@[simp] theorem pyPure_eq_ok {α : Type} (a : α) : (pure a : PyResult α) = Except.ok a := rfl

/-- Using a value as a Python dict (`v.get(...)` raises AttributeError on
anything else). -/
def asObj : JVal → PyResult (List (String × JVal))
  | .obj fields => .ok fields
  | _ => .error "AttributeError: object has no attribute get"

/-- Using a value where the layout engine needs text (reportlab's Paragraph
raises on non-string input). -/
def asStr : JVal → PyResult String
  | .str s => .ok s
  | _ => .error "TypeError: expected str"

/-- Iterating a value as a list (`for x in v` / `sep.join(v)` on a
non-sequence raises TypeError). -/
def asArr : JVal → PyResult (List JVal)
  | .arr elts => .ok elts
  | _ => .error "TypeError: expected list"

/-- Python `dict.get(k, default)`.  Dicts are association lists without
duplicate keys; lookup returns the first binding. -/
def dictGet (fields : List (String × JVal)) (k : String) (default : JVal) : JVal :=
  match fields.find? (fun kv => kv.1 == k) with
  | some kv => kv.2
  | none => default

/-- Converting every element of a Python list to text, as `sep.join(items)`
requires; raises on the first non-string element. -/
def strList : List JVal → PyResult (List String)
  | [] => .ok []
  | x :: xs => do
    let s ← asStr x
    let rest ← strList xs
    return s :: rest

/-- Python `sep.join(items)` over a list of JSON values. -/
def joinPy (sep : String) (items : List JVal) : PyResult String := do
  let strs ← strList items
  return String.intercalate sep strs

/-- The visual roles (ParagraphStyle / stylesheet entries) the two renderers
use. -/
inductive Style where
  | nameStyle | contactStyle | sectionStyle | contentStyle
  | jobTitleStyle | companyStyle
  | titleStyle | normal | heading2 | heading3
deriving Repr, DecidableEq

/-- One presentational element handed to the layout engine: a styled
paragraph or a spacer. -/
inductive Block where
  | para (text : String) (style : Style)
  | spacer (width height : Nat)
deriving Repr, DecidableEq

/-- Sequentially render each element of a Python list, concatenating the
blocks; the first raised exception aborts (models a `for` loop appending to
`elements`). -/
def forEachJ (f : JVal → PyResult (List Block)) : List JVal → PyResult (List Block)
  | [] => .ok []
  | x :: xs => do
    let b ← f x
    let rest ← forEachJ f xs
    return b ++ rest

/-- The recurring source pattern `if v: elements.append(Paragraph(v, style))`
— a paragraph holding the raw field value, emitted only when truthy. -/
def optTextPara (v : JVal) (style : Style) : PyResult (List Block) :=
  if truthy v then do
    let s ← asStr v
    pure [Block.para s style]
  else pure []

/-- The recurring source pattern
`if v: elements.append(Paragraph(f"LABEL {v}", style))` — a labelled
paragraph via f-string interpolation, emitted only when truthy. -/
def optLabelPara (pre : String) (style : Style) (v : JVal) : List Block :=
  if truthy v then [Block.para (pre ++ pyStr v) style] else []

/-- The source pattern `if v: ... Paragraph(prefix + ", ".join(v), style)` —
one comma-joined line, emitted only when truthy. -/
def optJoinLine (pre : String) (style : Style) (v : JVal) : PyResult (List Block) :=
  if truthy v then do
    let ts ← asArr v
    let txt ← joinPy ", " ts
    pure [Block.para (pre ++ txt) style]
  else pure []

/-- The source pattern `if v: for item in v: Paragraph(f"• {item}", ...)` —
one bullet paragraph per element, emitted only when truthy. -/
def optBullets (v : JVal) : PyResult (List Block) :=
  if truthy v then do
    let rs ← asArr v
    pure (rs.map (fun r => Block.para ("• " ++ pyStr r) .contentStyle))
  else pure []

/-- The source pattern `if items: Paragraph(sep.join(items), style)` — one
separator-joined line over raw values, emitted only when the list is
non-empty. -/
def joinedLine (sep : String) (style : Style) (items : List JVal) : PyResult (List Block) :=
  if items.isEmpty then pure []
  else do
    let line ← joinPy sep items
    pure [Block.para line style]

end PortfolioCV

namespace PortfolioCV.PdfGenerator

open PortfolioCV

/-- Blocks for one project (src/pdf_generator.py lines 146-160). -/
def projectBlocks (project : JVal) : PyResult (List Block) := do
  let pobj ← asObj project
  let project_name := dictGet pobj "name" (.str "Project")
  let head := Block.para ("<b>" ++ pyStr project_name ++ "</b>") .jobTitleStyle
  let descBlocks ← optTextPara (dictGet pobj "description" .null) .contentStyle
  let techBlocks ← optJoinLine "<b>Technologies:</b> " .contentStyle
    (dictGet pobj "technologies" .null)
  let linkBlocks := optLabelPara "<b>Link:</b> " .contentStyle (dictGet pobj "link" .null)
  return [head] ++ descBlocks ++ techBlocks ++ linkBlocks ++ [Block.spacer 1 6]

/-- Blocks for one work-experience entry (src/pdf_generator.py lines 165-180). -/
def jobBlocks (job : JVal) : PyResult (List Block) := do
  let jobj ← asObj job
  let position := dictGet jobj "position" (.str "Position")
  let company := dictGet jobj "company" (.str "Company")
  let duration := dictGet jobj "duration" (.str "")
  let company_line :=
    pyStr company ++ (if truthy duration then " | " ++ pyStr duration else "")
  let respBlocks ← optBullets (dictGet jobj "responsibilities" .null)
  return [Block.para ("<b>" ++ pyStr position ++ "</b>") .jobTitleStyle,
          Block.para company_line .companyStyle] ++ respBlocks ++ [Block.spacer 1 6]

/-- Blocks for one education entry (src/pdf_generator.py lines 185-203). -/
def eduBlocks (edu : JVal) : PyResult (List Block) := do
  let eobj ← asObj edu
  let degree := dictGet eobj "degree" (.str "Degree")
  let institution := dictGet eobj "institution" (.str "")
  let year := dictGet eobj "graduation_year" (.str "")
  let gpa := dictGet eobj "gpa" (.str "")
  let edu_details : List JVal :=
    (if truthy institution then [institution] else []) ++
    (if truthy year then [year] else []) ++
    (if truthy gpa then [.str ("GPA: " ++ pyStr gpa)] else [])
  let detailBlocks ← joinedLine " | " .companyStyle edu_details
  return [Block.para ("<b>" ++ pyStr degree ++ "</b>") .jobTitleStyle] ++
    detailBlocks ++ [Block.spacer 1 4]

/-- The fixed (field key, section title) list of additional sections
(src/pdf_generator.py lines 206-214). -/
def additional_sections : List (String × String) :=
  [("certifications", "CERTIFICATIONS"),
   ("awards", "AWARDS & ACHIEVEMENTS"),
   ("languages", "LANGUAGES"),
   ("publications", "PUBLICATIONS"),
   ("volunteer", "VOLUNTEER EXPERIENCE"),
   ("conferences", "CONFERENCES"),
   ("memberships", "PROFESSIONAL MEMBERSHIPS")]

/-- Blocks of one additional section (src/pdf_generator.py lines 216-226):
heading, then a comma-joined line for languages/certifications or one bullet
per item otherwise, then a spacer — emitted only when the field is truthy. -/
def additionalBlocks (root : List (String × JVal)) (kt : String × String) :
    PyResult (List Block) := do
  let data := dictGet root kt.1 (.arr [])
  if truthy data then do
    let items ← asArr data
    let body ←
      if kt.1 == "languages" || kt.1 == "certifications" then do
        let txt ← joinPy ", " items
        pure [Block.para txt .contentStyle]
      else
        pure (items.map (fun item => Block.para ("• " ++ pyStr item) .contentStyle))
    return [Block.para kt.2 .sectionStyle] ++ body ++ [Block.spacer 1 6]
  else
    return []

/-- Loop over the additional sections in their fixed order. -/
def additionalLoop (root : List (String × JVal)) :
    List (String × String) → PyResult (List Block)
  | [] => .ok []
  | kt :: rest => do
    let b ← additionalBlocks root kt
    let r ← additionalLoop root rest
    return b ++ r

/-- The Header Section of src/pdf_generator.py (lines 98-127): name title
(default "CV"), email/phone/address joined on one contact line, labelled
LinkedIn/GitHub/website links joined on a second line, then a spacer. -/
def headerBlocks (root : List (String × JVal)) : PyResult (List Block) := do
  let personal := dictGet root "personal_information" (.obj [])
  let pobj ← asObj personal
  let nameTxt ← asStr (dictGet pobj "name" (.str "CV"))
  let contact_info : List JVal :=
    (if truthy (dictGet pobj "email" .null) then [dictGet pobj "email" .null] else []) ++
    (if truthy (dictGet pobj "phone" .null) then [dictGet pobj "phone" .null] else []) ++
    (if truthy (dictGet pobj "address" .null) then [dictGet pobj "address" .null] else [])
  let contactBlocks ← joinedLine " | " .contactStyle contact_info
  let links : List String :=
    (if truthy (dictGet pobj "linkedin" .null) then
      ["LinkedIn: " ++ pyStr (dictGet pobj "linkedin" .null)] else []) ++
    (if truthy (dictGet pobj "github" .null) then
      ["GitHub: " ++ pyStr (dictGet pobj "github" .null)] else []) ++
    (if truthy (dictGet pobj "website" .null) then
      ["Website: " ++ pyStr (dictGet pobj "website" .null)] else [])
  let linkBlocks : List Block :=
    if links.isEmpty then [] else [Block.para (String.intercalate " | " links) .contactStyle]
  return [Block.para nameTxt .nameStyle] ++ contactBlocks ++ linkBlocks ++ [Block.spacer 1 12]

/-- The Professional Summary section of src/pdf_generator.py (lines 130-133). -/
def summarySection (root : List (String × JVal)) : PyResult (List Block) := do
  if truthy (dictGet root "professional_summary" .null) then do
    let s ← asStr (dictGet root "professional_summary" .null)
    pure [Block.para "PROFESSIONAL SUMMARY" .sectionStyle,
          Block.para s .contentStyle, Block.spacer 1 8]
  else pure []

/-- The Core Competencies section of src/pdf_generator.py (lines 136-141). -/
def skillsSection (root : List (String × JVal)) : PyResult (List Block) := do
  if truthy (dictGet root "skills" .null) then do
    let items ← asArr (dictGet root "skills" .null)
    let txt ← joinPy ", " items
    pure [Block.para "CORE COMPETENCIES" .sectionStyle,
          Block.para txt .contentStyle, Block.spacer 1 8]
  else pure []

/-- The Key Projects section of src/pdf_generator.py (lines 144-160). -/
def projectsSection (root : List (String × JVal)) : PyResult (List Block) := do
  if truthy (dictGet root "projects" .null) then do
    let ps ← asArr (dictGet root "projects" .null)
    let rendered ← forEachJ projectBlocks ps
    pure ([Block.para "KEY PROJECTS" .sectionStyle] ++ rendered)
  else pure []

/-- The Professional Experience section of src/pdf_generator.py (lines
163-180). -/
def workSection (root : List (String × JVal)) : PyResult (List Block) := do
  if truthy (dictGet root "work_experience" .null) then do
    let ws ← asArr (dictGet root "work_experience" .null)
    let rendered ← forEachJ jobBlocks ws
    pure ([Block.para "PROFESSIONAL EXPERIENCE" .sectionStyle] ++ rendered)
  else pure []

/-- The Education section of src/pdf_generator.py (lines 183-203). -/
def eduSection (root : List (String × JVal)) : PyResult (List Block) := do
  if truthy (dictGet root "education" .null) then do
    let es ← asArr (dictGet root "education" .null)
    let rendered ← forEachJ eduBlocks es
    pure ([Block.para "EDUCATION" .sectionStyle] ++ rendered)
  else pure []

/-- Translation of `generatepdf` in src/pdf_generator.py (lines 10-233): the
ordered block sequence handed to the layout engine, or the raised error,
assembled section by section exactly as the source's `elements` list. -/
def generatepdf (cv_data : JVal) : PyResult (List Block) := do
  let root ← asObj cv_data
  let hdr ← headerBlocks root
  let summary ← summarySection root
  let skills ← skillsSection root
  let projs ← projectsSection root
  let work ← workSection root
  let edu ← eduSection root
  let addl ← additionalLoop root additional_sections
  return hdr ++ summary ++ skills ++ projs ++ work ++ edu ++ addl

end PortfolioCV.PdfGenerator

namespace PortfolioCV.MainApp

open PortfolioCV

/-- Blocks for one project in the reduced renderer (src/main.py lines
199-203): bolded name, optional description, spacer. -/
def projectBlocks (project : JVal) : PyResult (List Block) := do
  let pobj ← asObj project
  let head := Block.para ("<b>" ++ pyStr (dictGet pobj "name" (.str "Project")) ++ "</b>") .heading3
  let descBlocks ← optTextPara (dictGet pobj "description" .null) .normal
  return [head] ++ descBlocks ++ [Block.spacer 1 8]

/-- The Personal Info part of the reduced renderer (src/main.py lines
171-181): name title, optional labelled email and phone lines, spacer. -/
def headerBlocks (root : List (String × JVal)) : PyResult (List Block) := do
  let personal := dictGet root "personal_information" (.obj [])
  let pobj ← asObj personal
  let nameTxt ← asStr (dictGet pobj "name" (.str "CV"))
  let emailBlocks := optLabelPara "Email: " .normal (dictGet pobj "email" .null)
  let phoneBlocks := optLabelPara "Phone: " .normal (dictGet pobj "phone" .null)
  return [Block.para nameTxt .titleStyle] ++ emailBlocks ++ phoneBlocks ++ [Block.spacer 1 20]

/-- The Professional Summary section of src/main.py (lines 184-187). -/
def summarySection (root : List (String × JVal)) : PyResult (List Block) := do
  if truthy (dictGet root "professional_summary" .null) then do
    let s ← asStr (dictGet root "professional_summary" .null)
    pure [Block.para "Professional Summary" .heading2,
          Block.para s .normal, Block.spacer 1 12]
  else pure []

/-- The Skills section of src/main.py (lines 190-194): skills joined with a
bullet separator. -/
def skillsSection (root : List (String × JVal)) : PyResult (List Block) := do
  if truthy (dictGet root "skills" .null) then do
    let items ← asArr (dictGet root "skills" .null)
    let txt ← joinPy " • " items
    pure [Block.para "Skills" .heading2, Block.para txt .normal, Block.spacer 1 12]
  else pure []

/-- The Projects section of src/main.py (lines 197-203). -/
def projectsSection (root : List (String × JVal)) : PyResult (List Block) := do
  if truthy (dictGet root "projects" .null) then do
    let ps ← asArr (dictGet root "projects" .null)
    let rendered ← forEachJ projectBlocks ps
    pure ([Block.para "Projects" .heading2] ++ rendered)
  else pure []

/-- Translation of the second `generatepdf`, defined in src/main.py (lines
153-209).  This is the renderer the `/scrape` endpoint actually calls when
PDF output is requested; it shadows the richer one in src/pdf_generator.py. -/
def generatepdf (cv_data : JVal) : PyResult (List Block) := do
  let root ← asObj cv_data
  let hdr ← headerBlocks root
  let summary ← summarySection root
  let skills ← skillsSection root
  let projs ← projectsSection root
  return hdr ++ summary ++ skills ++ projs

end PortfolioCV.MainApp

namespace PortfolioCV

/-- Python `str.strip()`: drop leading and trailing whitespace. -/
def pyStrip (s : String) : String :=
  ⟨((s.data.dropWhile Char.isWhitespace).reverse.dropWhile Char.isWhitespace).reverse⟩

/-- Python `s.startswith(pre)`. -/
def pyStartsWith (s pre : String) : Bool :=
  pre.data.isPrefixOf s.data

/-- Python `s.endswith(suf)`. -/
def pyEndsWith (s suf : String) : Bool :=
  suf.data.isSuffixOf s.data

/-- Python slicing `s[n:]`. -/
def pyDropLeft (s : String) (n : Nat) : String := ⟨s.data.drop n⟩

/-- Python slicing `s[:-n]` for a string known to have at least `n`
characters (general form: keep all but the last `n`). -/
def pyDropRight (s : String) (n : Nat) : String := ⟨s.data.take (s.data.length - n)⟩

/-- The completion-reply cleanup of src/main.py lines 68-79: trim, remove a
leading literal three-backticks-json marker (and then, independently, a
remaining leading three-backticks), remove a trailing three-backticks, trim
again. -/
def cleanReply (respText : String) : String :=
  let clean0 := pyStrip respText
  let clean1 := if pyStartsWith clean0 "```json" then pyDropLeft clean0 7 else clean0
  let clean2 := if pyStartsWith clean1 "```" then pyDropLeft clean1 3 else clean1
  let clean3 := if pyEndsWith clean2 "```" then pyDropRight clean2 3 else clean2
  pyStrip clean3

end PortfolioCV

namespace PortfolioCV.PdfApi

open PortfolioCV

/-- The process-wide `cv_storage` dict of src/genpdf/pdf_api.py, as an
association list; assignment prepends a binding and lookup takes the first,
so re-storing under a key overwrites. -/
abbrev Store := List (String × JVal)

/-- Python `cv_storage[session_id] = cv` (dict assignment). -/
def storePut (st : Store) (session_id : String) (cv : JVal) : Store :=
  (session_id, cv) :: st

/-- Python `cv_storage[session_id]` lookup / `session_id in cv_storage`. -/
def storeGet (st : Store) (session_id : String) : Option JVal :=
  (st.find? (fun kv => kv.1 == session_id)).map (fun kv => kv.2)

/-- The body every field-read endpoint returns on success: the field name
and the field's value (the real responses also carry a wall-clock
timestamp, which is outside the embedding). -/
structure FieldResponse where
  field : String
  data : JVal

/-- An endpoint outcome: a response, or an HTTPException with a status code
and detail string. -/
abbrev ApiResult (α : Type) := Except (Nat × String) α

/-- The shared shape of the fourteen field-read endpoints of
src/genpdf/pdf_api.py (lines 101-267): 404 when the session key was never
written, otherwise `stored.get(fieldName, default)`.  An endpoint body never
guards the stored value's type, so a non-dict stored record raises
(surfaced by the framework as a 500). -/
def get_field (fieldName : String) (default : JVal) (st : Store) (session_id : String) :
    ApiResult FieldResponse :=
  match storeGet st session_id with
  | none => .error (404, "CV data not found. Please process CV data first.")
  | some cv =>
    match cv with
    | .obj fields => .ok ⟨fieldName, dictGet fields fieldName default⟩
    | _ => .error (500, "AttributeError: object has no attribute get")

def get_personal_information : Store → String → ApiResult FieldResponse :=
  get_field "personal_information" (.obj [])

def get_professional_summary : Store → String → ApiResult FieldResponse :=
  get_field "professional_summary" (.str "")

def get_education : Store → String → ApiResult FieldResponse :=
  get_field "education" (.arr [])

def get_work_experience : Store → String → ApiResult FieldResponse :=
  get_field "work_experience" (.arr [])

def get_skills : Store → String → ApiResult FieldResponse :=
  get_field "skills" (.arr [])

def get_projects : Store → String → ApiResult FieldResponse :=
  get_field "projects" (.arr [])

def get_certifications : Store → String → ApiResult FieldResponse :=
  get_field "certifications" (.arr [])

def get_publications : Store → String → ApiResult FieldResponse :=
  get_field "publications" (.arr [])

def get_awards : Store → String → ApiResult FieldResponse :=
  get_field "awards" (.arr [])

def get_languages : Store → String → ApiResult FieldResponse :=
  get_field "languages" (.arr [])

def get_volunteer : Store → String → ApiResult FieldResponse :=
  get_field "volunteer" (.arr [])

def get_conferences : Store → String → ApiResult FieldResponse :=
  get_field "conferences" (.arr [])

def get_memberships : Store → String → ApiResult FieldResponse :=
  get_field "memberships" (.arr [])

def get_references : Store → String → ApiResult FieldResponse :=
  get_field "references" (.arr [])

/-- The `/genpdf/all-fields` endpoint (src/genpdf/pdf_api.py lines 269-279). -/
def get_all_cv_fields (st : Store) (session_id : String) : ApiResult JVal :=
  match storeGet st session_id with
  | none => .error (404, "CV data not found. Please process CV data first.")
  | some cv => .ok cv

end PortfolioCV.PdfApi

namespace PortfolioCV.MainApp

open PortfolioCV PortfolioCV.PdfApi

/-- A `json.JSONDecodeError`: message and character offset `pos`. -/
structure ParseError where
  msg : String
  pos : Nat

/-- What the `/scrape` endpoint produces once the completion reply is in
hand (src/main.py lines 67-137). -/
inductive ScrapeOutcome where
  | /-- HTTP 200: parse succeeded, data stored; JSON body with the raw
    completion text, the parsed record and its field list. -/
    parsed (session_id : String) (raw_content : String) (parsed_data : JVal)
      (parsed_fields : List String)
  | /-- HTTP 200: parse succeeded and `format=pdf`; streamed attachment. -/
    pdfOut (filename : String) (blocks : List Block)
  | /-- HTTP 200: parse failed; JSON body with the error text, the raw
    completion text and the numeric error offset (src/main.py lines
    126-134). -/
    parseFailed (message : String) (error : String) (raw_content : String)
      (debugPos : Nat)
  | /-- HTTPException raised (caught by the outer handler and surfaced as a
    500 server error). -/
    serverError (status : Nat) (detail : String)

/-- The tail of `getwebcontent` (src/main.py lines 67-137) from the point
the completion reply `respText` is available: clean the reply, parse it
with `json.loads` (an external collaborator, passed in as `parseJson`),
store on success, then either render a PDF or return the parsed JSON.
Returns the outcome together with the session store it leaves behind. -/
def handleReply (parseJson : String → Except ParseError JVal)
    (st : Store) (respText : String) (format : String) : ScrapeOutcome × Store :=
  let clean_json := cleanReply respText
  match parseJson clean_json with
  | .error e =>
    (.parseFailed "CV data extracted but parsing failed" e.msg respText e.pos, st)
  | .ok cv_data =>
    let st' := storePut st "default" cv_data
    if format.toLower == "pdf" then
      match (do
        let blocks ← generatepdf cv_data
        let root ← asObj cv_data
        let pobj ← asObj (dictGet root "personal_information" (.obj []))
        let nameV ← asStr (dictGet pobj "name" (.str "CV"))
        let filename := (nameV.replace " " "_") ++ "_CV.pdf"
        pure (filename, blocks) : PyResult (String × List Block)) with
      | .ok fb => (.pdfOut fb.1 fb.2, st')
      | .error e => (.serverError 500 e, st')
    else
      -- the JSON body also lists `cv_data.keys()`, which raises if the
      -- parsed document is not an object
      match cv_data with
      | .obj fields => (.parsed "default" respText cv_data (fields.map (fun kv => kv.1)), st')
      | _ => (.serverError 500 "AttributeError: object has no attribute keys", st')

end PortfolioCV.MainApp

namespace PortfolioCV

/-- The personal-information object of a CVRecord (spec section 3; pydantic
model `PersonalInformation` in src/genpdf/pdf_api.py).  Every field is
independently optional. -/
structure PersonalInformation where
  name : Option String := none
  email : Option String := none
  phone : Option String := none
  address : Option String := none
  linkedin : Option String := none
  github : Option String := none
  website : Option String := none
deriving Repr, DecidableEq

/-- One education entry (pydantic model `Education`). -/
structure Education where
  degree : Option String := none
  institution : Option String := none
  graduation_year : Option String := none
  gpa : Option String := none
deriving Repr, DecidableEq

/-- One work-experience entry (pydantic model `WorkExperience`). -/
structure WorkExperience where
  position : Option String := none
  company : Option String := none
  duration : Option String := none
  responsibilities : Option (List String) := none
deriving Repr, DecidableEq

/-- One project entry (pydantic model `Project`). -/
structure Project where
  name : Option String := none
  description : Option String := none
  technologies : Option (List String) := none
  link : Option String := none
deriving Repr, DecidableEq

/-- A CVRecord (spec section 3; pydantic model `CVData`): every top-level
field independently optional. -/
structure CVData where
  personal_information : Option PersonalInformation := none
  professional_summary : Option String := none
  education : Option (List Education) := none
  work_experience : Option (List WorkExperience) := none
  skills : Option (List String) := none
  projects : Option (List Project) := none
  certifications : Option (List String) := none
  publications : Option (List String) := none
  awards : Option (List String) := none
  languages : Option (List String) := none
  volunteer : Option (List String) := none
  conferences : Option (List String) := none
  memberships : Option (List String) := none
  references : Option (List String) := none
deriving Repr, DecidableEq

/-- One JSON field binding when the optional field is present, nothing when
it is absent (an absent field has no key in the parsed dict). -/
def optField (k : String) (v : Option JVal) : List (String × JVal) :=
  match v with
  | some j => [(k, j)]
  | none => []

/-- A JSON array of strings. -/
def strArr (l : List String) : JVal := .arr (l.map .str)

/-- The JSON object a PersonalInformation record parses from. -/
def PersonalInformation.fields (p : PersonalInformation) : List (String × JVal) :=
  optField "name" (p.name.map .str) ++
  optField "email" (p.email.map .str) ++
  optField "phone" (p.phone.map .str) ++
  optField "address" (p.address.map .str) ++
  optField "linkedin" (p.linkedin.map .str) ++
  optField "github" (p.github.map .str) ++
  optField "website" (p.website.map .str)

def PersonalInformation.toJVal (p : PersonalInformation) : JVal := .obj p.fields

/-- The JSON object an Education entry parses from. -/
def Education.fields (e : Education) : List (String × JVal) :=
  optField "degree" (e.degree.map .str) ++
  optField "institution" (e.institution.map .str) ++
  optField "graduation_year" (e.graduation_year.map .str) ++
  optField "gpa" (e.gpa.map .str)

def Education.toJVal (e : Education) : JVal := .obj e.fields

/-- The JSON object a WorkExperience entry parses from. -/
def WorkExperience.fields (w : WorkExperience) : List (String × JVal) :=
  optField "position" (w.position.map .str) ++
  optField "company" (w.company.map .str) ++
  optField "duration" (w.duration.map .str) ++
  optField "responsibilities" (w.responsibilities.map strArr)

def WorkExperience.toJVal (w : WorkExperience) : JVal := .obj w.fields

/-- The JSON object a Project entry parses from. -/
def Project.fields (pr : Project) : List (String × JVal) :=
  optField "name" (pr.name.map .str) ++
  optField "description" (pr.description.map .str) ++
  optField "technologies" (pr.technologies.map strArr) ++
  optField "link" (pr.link.map .str)

def Project.toJVal (pr : Project) : JVal := .obj pr.fields

/-- The JSON object a CVRecord parses from: one binding per present field,
in the schema's field order; absent fields have no key. -/
def CVData.rootFields (cv : CVData) : List (String × JVal) :=
  optField "personal_information" (cv.personal_information.map PersonalInformation.toJVal) ++
  optField "professional_summary" (cv.professional_summary.map .str) ++
  optField "education" (cv.education.map (fun l => JVal.arr (l.map Education.toJVal))) ++
  optField "work_experience" (cv.work_experience.map (fun l => JVal.arr (l.map WorkExperience.toJVal))) ++
  optField "skills" (cv.skills.map strArr) ++
  optField "projects" (cv.projects.map (fun l => JVal.arr (l.map Project.toJVal))) ++
  optField "certifications" (cv.certifications.map strArr) ++
  optField "publications" (cv.publications.map strArr) ++
  optField "awards" (cv.awards.map strArr) ++
  optField "languages" (cv.languages.map strArr) ++
  optField "volunteer" (cv.volunteer.map strArr) ++
  optField "conferences" (cv.conferences.map strArr) ++
  optField "memberships" (cv.memberships.map strArr) ++
  optField "references" (cv.references.map strArr)

def CVData.toJVal (cv : CVData) : JVal := .obj cv.rootFields

/-- The empty CVRecord: every optional field absent. -/
def emptyCV : CVData := {}

/-- A non-empty string as a one-element list, an empty one as nothing —
the shape Python's truthiness gives optional text. -/
def strNE (s : String) : List String :=
  if s == "" then [] else [s]

/-- The value of an optional text field when it is present and non-empty,
as a (zero- or one-element) list. -/
def optNE (o : Option String) : List String :=
  strNE (o.getD "")

/-- Spec section 4.2 step 7 / claim C1: an additional section is a heading,
then either one comma-joined line or one bullet line per item, then a
spacer — collapsing to nothing when the field is absent or empty. -/
def listSection (title : String) (commaJoined : Bool) (o : Option (List String)) :
    List Block :=
  let l := o.getD []
  if l.isEmpty then []
  else
    [Block.para title .sectionStyle] ++
    (if commaJoined then [Block.para (String.intercalate ", " l) .contentStyle]
     else l.map (fun item => Block.para ("• " ++ item) .contentStyle)) ++
    [Block.spacer 1 6]

/-- Spec section 4.2 step 4: one project block — bolded name (defaulting to
"Project"), optional description, optional comma-joined technologies line,
optional link line, spacer. -/
def projectSpec (pr : Project) : List Block :=
  [Block.para ("<b>" ++ pr.name.getD "Project" ++ "</b>") .jobTitleStyle] ++
  (optNE pr.description).map (fun d => Block.para d .contentStyle) ++
  (let ts := pr.technologies.getD []
   if ts.isEmpty then []
   else [Block.para ("<b>Technologies:</b> " ++ String.intercalate ", " ts) .contentStyle]) ++
  (optNE pr.link).map (fun l => Block.para ("<b>Link:</b> " ++ l) .contentStyle) ++
  [Block.spacer 1 6]

/-- Spec section 4.2 step 5: one work-experience block — bolded position
(default "Position"), a company/duration line (company defaults to
"Company"; duration appended after a separator when present), one bullet
per responsibility, spacer. -/
def jobSpec (j : WorkExperience) : List Block :=
  [Block.para ("<b>" ++ j.position.getD "Position" ++ "</b>") .jobTitleStyle,
   Block.para (j.company.getD "Company" ++
     (let d := j.duration.getD ""
      if d == "" then "" else " | " ++ d)) .companyStyle] ++
  (j.responsibilities.getD []).map (fun r => Block.para ("• " ++ r) .contentStyle) ++
  [Block.spacer 1 6]

/-- Spec section 4.2 step 6: one education block — bolded degree (default
"Degree"), then a separator-joined line of institution / year / GPA, each
included only if present and non-empty. -/
def eduSpec (e : Education) : List Block :=
  let details :=
    strNE (e.institution.getD "") ++
    strNE (e.graduation_year.getD "") ++
    (strNE (e.gpa.getD "")).map (fun g => "GPA: " ++ g)
  [Block.para ("<b>" ++ e.degree.getD "Degree" ++ "</b>") .jobTitleStyle] ++
  (if details.isEmpty then [] else [Block.para (String.intercalate " | " details) .companyStyle]) ++
  [Block.spacer 1 4]

/-- Spec section 4.2 step 1: the header — centered name title (default
"CV"), one separator-joined contact line when any of email/phone/address is
present, one separator-joined labelled-links line when any professional
link is present. -/
def headerSpec (cv : CVData) : List Block :=
  let p := cv.personal_information.getD {}
  let contact_info := optNE p.email ++ optNE p.phone ++ optNE p.address
  let links :=
    (optNE p.linkedin).map (fun s => "LinkedIn: " ++ s) ++
    (optNE p.github).map (fun s => "GitHub: " ++ s) ++
    (optNE p.website).map (fun s => "Website: " ++ s)
  [Block.para (p.name.getD "CV") .nameStyle] ++
  (if contact_info.isEmpty then []
   else [Block.para (String.intercalate " | " contact_info) .contactStyle]) ++
  (if links.isEmpty then []
   else [Block.para (String.intercalate " | " links) .contactStyle]) ++
  [Block.spacer 1 12]

/-- Spec section 4.2 step 2: the summary section, collapsing to nothing
when absent or empty. -/
def summarySpec (cv : CVData) : List Block :=
  let s := cv.professional_summary.getD ""
  if s == "" then []
  else [Block.para "PROFESSIONAL SUMMARY" .sectionStyle,
        Block.para s .contentStyle, Block.spacer 1 8]

/-- Spec section 4.2 step 3: the skills section, all skills joined on one
comma-separated line. -/
def skillsSpec (cv : CVData) : List Block :=
  let sk := cv.skills.getD []
  if sk.isEmpty then []
  else [Block.para "CORE COMPETENCIES" .sectionStyle,
        Block.para (String.intercalate ", " sk) .contentStyle, Block.spacer 1 8]

/-- Spec section 4.2 step 4: the projects section. -/
def projectsSpec (cv : CVData) : List Block :=
  let ps := cv.projects.getD []
  if ps.isEmpty then []
  else [Block.para "KEY PROJECTS" .sectionStyle] ++ (ps.map projectSpec).flatten

/-- Spec section 4.2 step 5: the work-experience section. -/
def workSpec (cv : CVData) : List Block :=
  let ws := cv.work_experience.getD []
  if ws.isEmpty then []
  else [Block.para "PROFESSIONAL EXPERIENCE" .sectionStyle] ++ (ws.map jobSpec).flatten

/-- Spec section 4.2 step 6: the education section. -/
def eduSectionSpec (cv : CVData) : List Block :=
  let es := cv.education.getD []
  if es.isEmpty then []
  else [Block.para "EDUCATION" .sectionStyle] ++ (es.map eduSpec).flatten

/-- Spec section 4.2 step 7: the additional sections in their fixed order;
languages and certifications comma-joined, the rest one bullet per item. -/
def additionalSpec (cv : CVData) : List Block :=
  listSection "CERTIFICATIONS" true cv.certifications ++
  listSection "AWARDS & ACHIEVEMENTS" false cv.awards ++
  listSection "LANGUAGES" true cv.languages ++
  listSection "PUBLICATIONS" false cv.publications ++
  listSection "VOLUNTEER EXPERIENCE" false cv.volunteer ++
  listSection "CONFERENCES" false cv.conferences ++
  listSection "PROFESSIONAL MEMBERSHIPS" false cv.memberships

/-- The block sequence spec section 4.2 and claim C1 describe for the
Document Renderer of src/pdf_generator.py: Header, Professional Summary,
Skills, Projects, Work Experience, Education, then the additional sections
in their fixed order, each block emitted only if its driving field is
non-empty. -/
def specRender (cv : CVData) : List Block :=
  headerSpec cv ++ summarySpec cv ++ skillsSpec cv ++ projectsSpec cv ++
  workSpec cv ++ eduSectionSpec cv ++ additionalSpec cv

/-- Claim C9's header for the reduced renderer: name title, optional
labelled email and phone lines. -/
def mainHeaderSpec (cv : CVData) : List Block :=
  let p := cv.personal_information.getD {}
  [Block.para (p.name.getD "CV") .titleStyle] ++
  (optNE p.email).map (fun e => Block.para ("Email: " ++ e) .normal) ++
  (optNE p.phone).map (fun ph => Block.para ("Phone: " ++ ph) .normal) ++
  [Block.spacer 1 20]

/-- Claim C9's summary section for the reduced renderer. -/
def mainSummarySpec (cv : CVData) : List Block :=
  let s := cv.professional_summary.getD ""
  if s == "" then []
  else [Block.para "Professional Summary" .heading2,
        Block.para s .normal, Block.spacer 1 12]

/-- Claim C9's skills section for the reduced renderer: skills joined with
a bullet separator. -/
def mainSkillsSpec (cv : CVData) : List Block :=
  let sk := cv.skills.getD []
  if sk.isEmpty then []
  else [Block.para "Skills" .heading2,
        Block.para (String.intercalate " • " sk) .normal, Block.spacer 1 12]

/-- Claim C9's projects section for the reduced renderer: per project only
the bolded name and the description. -/
def mainProjectsSpec (cv : CVData) : List Block :=
  let ps := cv.projects.getD []
  if ps.isEmpty then []
  else [Block.para "Projects" .heading2] ++
    (ps.map (fun pr =>
      [Block.para ("<b>" ++ pr.name.getD "Project" ++ "</b>") .heading3] ++
      (optNE pr.description).map (fun d => Block.para d .normal) ++
      [Block.spacer 1 8])).flatten

/-- The block sequence claim C9 describes for the reduced renderer defined
in src/main.py: name title, email line, phone line, Professional Summary,
Skills joined with a bullet separator, and Projects with name and
description only — nothing else, whatever the other fields hold. -/
def mainSpecRender (cv : CVData) : List Block :=
  mainHeaderSpec cv ++ mainSummarySpec cv ++ mainSkillsSpec cv ++ mainProjectsSpec cv

/-! Lookup lemmas: `dict.get` over the JSON object a typed record embeds
to, one lemma per schema field. -/

@[simp] theorem find?_optField (k k' : String) (v : Option JVal) :
    (optField k v).find? (fun kv => kv.1 == k') =
      if k = k' then v.map (fun j => (k, j)) else none := by
  cases v with
  | none => simp [optField]
  | some j => by_cases h : k = k' <;> simp [optField, h]

theorem dictGet_eq_find? (fields : List (String × JVal)) (k : String) (d : JVal) :
    dictGet fields k d = ((fields.find? (fun kv => kv.1 == k)).map (fun kv => kv.2)).getD d := by
  unfold dictGet
  cases fields.find? (fun kv => kv.1 == k) <;> rfl

theorem dictGet_root_personal_information (cv : CVData) (d : JVal) :
    dictGet cv.rootFields "personal_information" d =
      (cv.personal_information.map PersonalInformation.toJVal).getD d := by
  rw [dictGet_eq_find?]; unfold CVData.rootFields
  cases cv.personal_information <;> simp

theorem dictGet_root_professional_summary (cv : CVData) (d : JVal) :
    dictGet cv.rootFields "professional_summary" d =
      (cv.professional_summary.map JVal.str).getD d := by
  rw [dictGet_eq_find?]; unfold CVData.rootFields
  cases cv.professional_summary <;> simp

theorem dictGet_root_education (cv : CVData) (d : JVal) :
    dictGet cv.rootFields "education" d =
      (cv.education.map (fun l => JVal.arr (l.map Education.toJVal))).getD d := by
  rw [dictGet_eq_find?]; unfold CVData.rootFields
  cases cv.education <;> simp

theorem dictGet_root_work_experience (cv : CVData) (d : JVal) :
    dictGet cv.rootFields "work_experience" d =
      (cv.work_experience.map (fun l => JVal.arr (l.map WorkExperience.toJVal))).getD d := by
  rw [dictGet_eq_find?]; unfold CVData.rootFields
  cases cv.work_experience <;> simp

theorem dictGet_root_skills (cv : CVData) (d : JVal) :
    dictGet cv.rootFields "skills" d = (cv.skills.map strArr).getD d := by
  rw [dictGet_eq_find?]; unfold CVData.rootFields
  cases cv.skills <;> simp

theorem dictGet_root_projects (cv : CVData) (d : JVal) :
    dictGet cv.rootFields "projects" d =
      (cv.projects.map (fun l => JVal.arr (l.map Project.toJVal))).getD d := by
  rw [dictGet_eq_find?]; unfold CVData.rootFields
  cases cv.projects <;> simp

theorem dictGet_root_certifications (cv : CVData) (d : JVal) :
    dictGet cv.rootFields "certifications" d = (cv.certifications.map strArr).getD d := by
  rw [dictGet_eq_find?]; unfold CVData.rootFields
  cases cv.certifications <;> simp

theorem dictGet_root_publications (cv : CVData) (d : JVal) :
    dictGet cv.rootFields "publications" d = (cv.publications.map strArr).getD d := by
  rw [dictGet_eq_find?]; unfold CVData.rootFields
  cases cv.publications <;> simp

theorem dictGet_root_awards (cv : CVData) (d : JVal) :
    dictGet cv.rootFields "awards" d = (cv.awards.map strArr).getD d := by
  rw [dictGet_eq_find?]; unfold CVData.rootFields
  cases cv.awards <;> simp

theorem dictGet_root_languages (cv : CVData) (d : JVal) :
    dictGet cv.rootFields "languages" d = (cv.languages.map strArr).getD d := by
  rw [dictGet_eq_find?]; unfold CVData.rootFields
  cases cv.languages <;> simp

theorem dictGet_root_volunteer (cv : CVData) (d : JVal) :
    dictGet cv.rootFields "volunteer" d = (cv.volunteer.map strArr).getD d := by
  rw [dictGet_eq_find?]; unfold CVData.rootFields
  cases cv.volunteer <;> simp

theorem dictGet_root_conferences (cv : CVData) (d : JVal) :
    dictGet cv.rootFields "conferences" d = (cv.conferences.map strArr).getD d := by
  rw [dictGet_eq_find?]; unfold CVData.rootFields
  cases cv.conferences <;> simp

theorem dictGet_root_memberships (cv : CVData) (d : JVal) :
    dictGet cv.rootFields "memberships" d = (cv.memberships.map strArr).getD d := by
  rw [dictGet_eq_find?]; unfold CVData.rootFields
  cases cv.memberships <;> simp

theorem dictGet_root_references (cv : CVData) (d : JVal) :
    dictGet cv.rootFields "references" d = (cv.references.map strArr).getD d := by
  rw [dictGet_eq_find?]; unfold CVData.rootFields
  cases cv.references <;> simp

theorem dictGet_pi_name (p : PersonalInformation) (d : JVal) :
    dictGet p.fields "name" d = (p.name.map JVal.str).getD d := by
  rw [dictGet_eq_find?]; unfold PersonalInformation.fields
  cases p.name <;> simp

theorem dictGet_pi_email (p : PersonalInformation) (d : JVal) :
    dictGet p.fields "email" d = (p.email.map JVal.str).getD d := by
  rw [dictGet_eq_find?]; unfold PersonalInformation.fields
  cases p.email <;> simp

theorem dictGet_pi_phone (p : PersonalInformation) (d : JVal) :
    dictGet p.fields "phone" d = (p.phone.map JVal.str).getD d := by
  rw [dictGet_eq_find?]; unfold PersonalInformation.fields
  cases p.phone <;> simp

theorem dictGet_pi_address (p : PersonalInformation) (d : JVal) :
    dictGet p.fields "address" d = (p.address.map JVal.str).getD d := by
  rw [dictGet_eq_find?]; unfold PersonalInformation.fields
  cases p.address <;> simp

theorem dictGet_pi_linkedin (p : PersonalInformation) (d : JVal) :
    dictGet p.fields "linkedin" d = (p.linkedin.map JVal.str).getD d := by
  rw [dictGet_eq_find?]; unfold PersonalInformation.fields
  cases p.linkedin <;> simp

theorem dictGet_pi_github (p : PersonalInformation) (d : JVal) :
    dictGet p.fields "github" d = (p.github.map JVal.str).getD d := by
  rw [dictGet_eq_find?]; unfold PersonalInformation.fields
  cases p.github <;> simp

theorem dictGet_pi_website (p : PersonalInformation) (d : JVal) :
    dictGet p.fields "website" d = (p.website.map JVal.str).getD d := by
  rw [dictGet_eq_find?]; unfold PersonalInformation.fields
  cases p.website <;> simp

theorem dictGet_project_name (pr : Project) (d : JVal) :
    dictGet pr.fields "name" d = (pr.name.map JVal.str).getD d := by
  rw [dictGet_eq_find?]; unfold Project.fields
  cases pr.name <;> simp

theorem dictGet_project_description (pr : Project) (d : JVal) :
    dictGet pr.fields "description" d = (pr.description.map JVal.str).getD d := by
  rw [dictGet_eq_find?]; unfold Project.fields
  cases pr.description <;> simp

theorem dictGet_project_technologies (pr : Project) (d : JVal) :
    dictGet pr.fields "technologies" d = (pr.technologies.map strArr).getD d := by
  rw [dictGet_eq_find?]; unfold Project.fields
  cases pr.technologies <;> simp

theorem dictGet_project_link (pr : Project) (d : JVal) :
    dictGet pr.fields "link" d = (pr.link.map JVal.str).getD d := by
  rw [dictGet_eq_find?]; unfold Project.fields
  cases pr.link <;> simp

theorem dictGet_job_position (j : WorkExperience) (d : JVal) :
    dictGet j.fields "position" d = (j.position.map JVal.str).getD d := by
  rw [dictGet_eq_find?]; unfold WorkExperience.fields
  cases j.position <;> simp

theorem dictGet_job_company (j : WorkExperience) (d : JVal) :
    dictGet j.fields "company" d = (j.company.map JVal.str).getD d := by
  rw [dictGet_eq_find?]; unfold WorkExperience.fields
  cases j.company <;> simp

theorem dictGet_job_duration (j : WorkExperience) (d : JVal) :
    dictGet j.fields "duration" d = (j.duration.map JVal.str).getD d := by
  rw [dictGet_eq_find?]; unfold WorkExperience.fields
  cases j.duration <;> simp

theorem dictGet_job_responsibilities (j : WorkExperience) (d : JVal) :
    dictGet j.fields "responsibilities" d = (j.responsibilities.map strArr).getD d := by
  rw [dictGet_eq_find?]; unfold WorkExperience.fields
  cases j.responsibilities <;> simp

theorem dictGet_edu_degree (e : Education) (d : JVal) :
    dictGet e.fields "degree" d = (e.degree.map JVal.str).getD d := by
  rw [dictGet_eq_find?]; unfold Education.fields
  cases e.degree <;> simp

theorem dictGet_edu_institution (e : Education) (d : JVal) :
    dictGet e.fields "institution" d = (e.institution.map JVal.str).getD d := by
  rw [dictGet_eq_find?]; unfold Education.fields
  cases e.institution <;> simp

theorem dictGet_edu_graduation_year (e : Education) (d : JVal) :
    dictGet e.fields "graduation_year" d = (e.graduation_year.map JVal.str).getD d := by
  rw [dictGet_eq_find?]; unfold Education.fields
  cases e.graduation_year <;> simp

theorem dictGet_edu_gpa (e : Education) (d : JVal) :
    dictGet e.fields "gpa" d = (e.gpa.map JVal.str).getD d := by
  rw [dictGet_eq_find?]; unfold Education.fields
  cases e.gpa <;> simp

/-! Evaluation lemmas: the Python primitives applied to the values a typed
record embeds to. -/

@[simp] theorem strOpt_getD_str (o : Option String) (d : String) :
    (o.map JVal.str).getD (.str d) = .str (o.getD d) := by
  cases o <;> rfl

@[simp] theorem strArr_getD (o : Option (List String)) :
    (o.map strArr).getD (.arr []) = strArr (o.getD []) := by
  cases o <;> rfl

theorem personal_getD (cv : CVData) :
    (cv.personal_information.map PersonalInformation.toJVal).getD (.obj []) =
      (cv.personal_information.getD {}).toJVal := by
  cases cv.personal_information <;> rfl

theorem strList_map_str (l : List String) :
    strList (l.map JVal.str) = .ok l := by
  induction l with
  | nil => rfl
  | cons x xs ih => simp [strList, asStr, ih]

theorem joinPy_map_str (sep : String) (l : List String) :
    joinPy sep (l.map JVal.str) = .ok (String.intercalate sep l) := by
  simp [joinPy, strList_map_str]

/-- A `forEachJ` loop over embedded entries renders each entry by its
per-entry description. -/
theorem forEachJ_map {α : Type} (f : JVal → PyResult (List Block)) (g : α → JVal)
    (h : α → List Block) (H : ∀ a, f (g a) = .ok (h a)) (l : List α) :
    forEachJ f (l.map g) = .ok ((l.map h).flatten) := by
  induction l with
  | nil => rfl
  | cons x xs ih => simp [forEachJ, H, ih]

theorem forEachJ_cons_map {α : Type} (f : JVal → PyResult (List Block)) (g : α → JVal)
    (h : α → List Block) (H : ∀ a, f (g a) = .ok (h a)) (x : α) (xs : List α) :
    forEachJ f (g x :: xs.map g) = .ok (h x ++ (xs.map h).flatten) :=
  forEachJ_map f g h H (x :: xs)

/-! Chunk lemmas: each truthiness-guarded fragment of the renderers, on an
embedded optional field. -/

theorem joinPy_cons_str (sep x : String) (xs : List String) :
    joinPy sep (JVal.str x :: xs.map JVal.str) = .ok (String.intercalate sep (x :: xs)) :=
  joinPy_map_str sep (x :: xs)

theorem contactChunk (o : Option String) :
    (if truthy ((o.map JVal.str).getD .null) then [(o.map JVal.str).getD .null] else []) =
      (optNE o).map JVal.str := by
  cases o with
  | none => rfl
  | some s => by_cases h : s = "" <;> simp [truthy, optNE, strNE, h]

theorem labelStrChunk (pre : String) (o : Option String) :
    (if truthy ((o.map JVal.str).getD .null) then
      [pre ++ pyStr ((o.map JVal.str).getD .null)] else []) =
      (optNE o).map (fun s => pre ++ s) := by
  cases o with
  | none => rfl
  | some s => by_cases h : s = "" <;> simp [truthy, pyStr, optNE, strNE, h]

theorem optLabelPara_typed (pre : String) (style : Style) (o : Option String) :
    optLabelPara pre style ((o.map JVal.str).getD .null) =
      (optNE o).map (fun s => Block.para (pre ++ s) style) := by
  cases o with
  | none => rfl
  | some s => by_cases h : s = "" <;> simp [optLabelPara, truthy, pyStr, optNE, strNE, h]

theorem optTextPara_typed (style : Style) (o : Option String) :
    optTextPara ((o.map JVal.str).getD .null) style =
      .ok ((optNE o).map (fun s => Block.para s style)) := by
  cases o with
  | none => rfl
  | some s => by_cases h : s = "" <;> simp [optTextPara, truthy, asStr, optNE, strNE, h]

theorem joinedLine_map (sep : String) (style : Style) (l : List String) :
    joinedLine sep style (l.map JVal.str) =
      .ok (if l.isEmpty then [] else [Block.para (String.intercalate sep l) style]) := by
  cases l with
  | nil => rfl
  | cons x xs => simp [joinedLine, joinPy_cons_str]

theorem optJoinLine_typed (pre : String) (style : Style) (o : Option (List String)) :
    optJoinLine pre style ((o.map strArr).getD .null) =
      .ok (if (o.getD []).isEmpty then []
           else [Block.para (pre ++ String.intercalate ", " (o.getD [])) style]) := by
  cases o with
  | none => rfl
  | some l =>
    cases l with
    | nil => rfl
    | cons x xs => simp [optJoinLine, truthy, asArr, strArr, joinPy_cons_str]

theorem optBullets_typed (o : Option (List String)) :
    optBullets ((o.map strArr).getD .null) =
      .ok ((o.getD []).map (fun r => Block.para ("• " ++ r) .contentStyle)) := by
  cases o with
  | none => rfl
  | some l =>
    cases l with
    | nil => rfl
    | cons x xs =>
      simp [optBullets, truthy, asArr, strArr, pyStr, List.map_map, Function.comp]

theorem strNEChunk (s : String) :
    (if truthy (JVal.str s) then [JVal.str s] else []) = (strNE s).map JVal.str := by
  by_cases h : s = "" <;> simp [truthy, strNE, h]

theorem strNEGpaChunk (s : String) :
    (if truthy (JVal.str s) then [JVal.str ("GPA: " ++ s)] else []) =
      ((strNE s).map (fun g => "GPA: " ++ g)).map JVal.str := by
  by_cases h : s = "" <;> simp [truthy, strNE, h]

/-! Refinement: the JSON-level renderer of src/pdf_generator.py, applied to
an embedded typed record, produces exactly the spec-level block sequence. -/

theorem projectBlocks_typed (pr : Project) :
    PdfGenerator.projectBlocks pr.toJVal = .ok (projectSpec pr) := by
  simp only [PdfGenerator.projectBlocks, Project.toJVal, asObj, pyBind_ok,
    dictGet_project_name, dictGet_project_description, dictGet_project_technologies,
    dictGet_project_link, optTextPara_typed, optJoinLine_typed, optLabelPara_typed,
    strOpt_getD_str, pyStr]
  simp [projectSpec]

theorem jobBlocks_typed (j : WorkExperience) :
    PdfGenerator.jobBlocks j.toJVal = .ok (jobSpec j) := by
  simp only [PdfGenerator.jobBlocks, WorkExperience.toJVal, asObj, pyBind_ok,
    dictGet_job_position, dictGet_job_company, dictGet_job_duration,
    dictGet_job_responsibilities, optBullets_typed, strOpt_getD_str, pyStr]
  by_cases hd : j.duration.getD "" = "" <;> simp [jobSpec, truthy, hd]

theorem eduBlocks_typed (e : Education) :
    PdfGenerator.eduBlocks e.toJVal = .ok (eduSpec e) := by
  simp only [PdfGenerator.eduBlocks, Education.toJVal, asObj, pyBind_ok,
    dictGet_edu_degree, dictGet_edu_institution, dictGet_edu_graduation_year,
    dictGet_edu_gpa, strOpt_getD_str, pyStr, strNEChunk, strNEGpaChunk]
  simp only [← List.map_append]
  simp only [joinedLine_map, pyBind_ok]
  simp [eduSpec]

theorem headerBlocks_typed (cv : CVData) :
    PdfGenerator.headerBlocks cv.rootFields = .ok (headerSpec cv) := by
  simp only [PdfGenerator.headerBlocks, headerSpec,
    dictGet_root_personal_information, personal_getD, PersonalInformation.toJVal,
    asObj, pyBind_ok, dictGet_pi_name, dictGet_pi_email, dictGet_pi_phone,
    dictGet_pi_address, dictGet_pi_linkedin, dictGet_pi_github, dictGet_pi_website,
    strOpt_getD_str, asStr, contactChunk, labelStrChunk]
  simp only [← List.map_append]
  simp only [joinedLine_map, pyBind_ok]
  simp

theorem summarySection_typed (cv : CVData) :
    PdfGenerator.summarySection cv.rootFields = .ok (summarySpec cv) := by
  unfold PdfGenerator.summarySection summarySpec
  rw [dictGet_root_professional_summary]
  cases h : cv.professional_summary with
  | none => rfl
  | some s => by_cases hs : s = "" <;> simp [truthy, asStr, hs]

theorem skillsSection_typed (cv : CVData) :
    PdfGenerator.skillsSection cv.rootFields = .ok (skillsSpec cv) := by
  unfold PdfGenerator.skillsSection skillsSpec
  rw [dictGet_root_skills]
  cases h : cv.skills with
  | none => rfl
  | some l =>
    cases l with
    | nil => rfl
    | cons x xs => simp [truthy, strArr, asArr, joinPy_cons_str]

theorem projectsSection_typed (cv : CVData) :
    PdfGenerator.projectsSection cv.rootFields = .ok (projectsSpec cv) := by
  unfold PdfGenerator.projectsSection projectsSpec
  rw [dictGet_root_projects]
  cases h : cv.projects with
  | none => rfl
  | some ps =>
    cases ps with
    | nil => rfl
    | cons p rest =>
      simp [truthy, asArr,
        forEachJ_cons_map PdfGenerator.projectBlocks Project.toJVal projectSpec
          projectBlocks_typed]

theorem workSection_typed (cv : CVData) :
    PdfGenerator.workSection cv.rootFields = .ok (workSpec cv) := by
  unfold PdfGenerator.workSection workSpec
  rw [dictGet_root_work_experience]
  cases h : cv.work_experience with
  | none => rfl
  | some ws =>
    cases ws with
    | nil => rfl
    | cons w rest =>
      simp [truthy, asArr,
        forEachJ_cons_map PdfGenerator.jobBlocks WorkExperience.toJVal jobSpec
          jobBlocks_typed]

theorem eduSection_typed (cv : CVData) :
    PdfGenerator.eduSection cv.rootFields = .ok (eduSectionSpec cv) := by
  unfold PdfGenerator.eduSection eduSectionSpec
  rw [dictGet_root_education]
  cases h : cv.education with
  | none => rfl
  | some es =>
    cases es with
    | nil => rfl
    | cons e rest =>
      simp [truthy, asArr,
        forEachJ_cons_map PdfGenerator.eduBlocks Education.toJVal eduSpec
          eduBlocks_typed]

theorem additionalBlocks_eq (root : List (String × JVal)) (kt : String × String)
    (o : Option (List String))
    (hget : dictGet root kt.1 (.arr []) = strArr (o.getD [])) :
    PdfGenerator.additionalBlocks root kt =
      .ok (listSection kt.2 (kt.1 == "languages" || kt.1 == "certifications") o) := by
  unfold PdfGenerator.additionalBlocks listSection
  rw [hget]
  cases hl : o.getD [] with
  | nil => rfl
  | cons x xs =>
    cases hb : (kt.1 == "languages" || kt.1 == "certifications") <;>
      simp [truthy, strArr, asArr, joinPy_cons_str, pyStr, List.map_map, Function.comp, hb]

theorem additionalBlocks_certifications (cv : CVData) :
    PdfGenerator.additionalBlocks cv.rootFields ("certifications", "CERTIFICATIONS") =
      .ok (listSection "CERTIFICATIONS" true cv.certifications) := by
  have h := additionalBlocks_eq cv.rootFields ("certifications", "CERTIFICATIONS")
    cv.certifications (by rw [dictGet_root_certifications]; simp)
  simpa using h

theorem additionalBlocks_awards (cv : CVData) :
    PdfGenerator.additionalBlocks cv.rootFields ("awards", "AWARDS & ACHIEVEMENTS") =
      .ok (listSection "AWARDS & ACHIEVEMENTS" false cv.awards) := by
  have h := additionalBlocks_eq cv.rootFields ("awards", "AWARDS & ACHIEVEMENTS")
    cv.awards (by rw [dictGet_root_awards]; simp)
  simpa using h

theorem additionalBlocks_languages (cv : CVData) :
    PdfGenerator.additionalBlocks cv.rootFields ("languages", "LANGUAGES") =
      .ok (listSection "LANGUAGES" true cv.languages) := by
  have h := additionalBlocks_eq cv.rootFields ("languages", "LANGUAGES")
    cv.languages (by rw [dictGet_root_languages]; simp)
  simpa using h

theorem additionalBlocks_publications (cv : CVData) :
    PdfGenerator.additionalBlocks cv.rootFields ("publications", "PUBLICATIONS") =
      .ok (listSection "PUBLICATIONS" false cv.publications) := by
  have h := additionalBlocks_eq cv.rootFields ("publications", "PUBLICATIONS")
    cv.publications (by rw [dictGet_root_publications]; simp)
  simpa using h

theorem additionalBlocks_volunteer (cv : CVData) :
    PdfGenerator.additionalBlocks cv.rootFields ("volunteer", "VOLUNTEER EXPERIENCE") =
      .ok (listSection "VOLUNTEER EXPERIENCE" false cv.volunteer) := by
  have h := additionalBlocks_eq cv.rootFields ("volunteer", "VOLUNTEER EXPERIENCE")
    cv.volunteer (by rw [dictGet_root_volunteer]; simp)
  simpa using h

theorem additionalBlocks_conferences (cv : CVData) :
    PdfGenerator.additionalBlocks cv.rootFields ("conferences", "CONFERENCES") =
      .ok (listSection "CONFERENCES" false cv.conferences) := by
  have h := additionalBlocks_eq cv.rootFields ("conferences", "CONFERENCES")
    cv.conferences (by rw [dictGet_root_conferences]; simp)
  simpa using h

theorem additionalBlocks_memberships (cv : CVData) :
    PdfGenerator.additionalBlocks cv.rootFields ("memberships", "PROFESSIONAL MEMBERSHIPS") =
      .ok (listSection "PROFESSIONAL MEMBERSHIPS" false cv.memberships) := by
  have h := additionalBlocks_eq cv.rootFields ("memberships", "PROFESSIONAL MEMBERSHIPS")
    cv.memberships (by rw [dictGet_root_memberships]; simp)
  simpa using h

theorem additionalLoop_typed (cv : CVData) :
    PdfGenerator.additionalLoop cv.rootFields PdfGenerator.additional_sections =
      .ok (additionalSpec cv) := by
  unfold PdfGenerator.additional_sections additionalSpec
  simp [PdfGenerator.additionalLoop,
    additionalBlocks_certifications, additionalBlocks_awards, additionalBlocks_languages,
    additionalBlocks_publications, additionalBlocks_volunteer, additionalBlocks_conferences,
    additionalBlocks_memberships]

/-- Shared refinement lemma: on every embedded typed CVRecord the renderer
of src/pdf_generator.py succeeds and produces exactly the spec-level block
sequence. -/
theorem generatepdf_spec (cv : CVData) :
    PdfGenerator.generatepdf cv.toJVal = .ok (specRender cv) := by
  unfold PdfGenerator.generatepdf specRender
  simp only [CVData.toJVal, asObj, pyBind_ok]
  rw [headerBlocks_typed, summarySection_typed, skillsSection_typed,
      projectsSection_typed, workSection_typed, eduSection_typed, additionalLoop_typed]
  simp

/-! Refinement for the reduced renderer defined in src/main.py. -/

theorem mainProjectBlocks_typed (pr : Project) :
    MainApp.projectBlocks pr.toJVal =
      .ok ([Block.para ("<b>" ++ pr.name.getD "Project" ++ "</b>") .heading3] ++
        (optNE pr.description).map (fun d => Block.para d .normal) ++
        [Block.spacer 1 8]) := by
  simp only [MainApp.projectBlocks, Project.toJVal, asObj, pyBind_ok,
    dictGet_project_name, dictGet_project_description, optTextPara_typed,
    strOpt_getD_str, pyStr]
  simp

theorem mainHeaderBlocks_typed (cv : CVData) :
    MainApp.headerBlocks cv.rootFields = .ok (mainHeaderSpec cv) := by
  simp only [MainApp.headerBlocks, mainHeaderSpec,
    dictGet_root_personal_information, personal_getD, PersonalInformation.toJVal,
    asObj, pyBind_ok, dictGet_pi_name, dictGet_pi_email, dictGet_pi_phone,
    strOpt_getD_str, asStr, optLabelPara_typed]
  simp

theorem mainSummarySection_typed (cv : CVData) :
    MainApp.summarySection cv.rootFields = .ok (mainSummarySpec cv) := by
  unfold MainApp.summarySection mainSummarySpec
  rw [dictGet_root_professional_summary]
  cases h : cv.professional_summary with
  | none => rfl
  | some s => by_cases hs : s = "" <;> simp [truthy, asStr, hs]

theorem mainSkillsSection_typed (cv : CVData) :
    MainApp.skillsSection cv.rootFields = .ok (mainSkillsSpec cv) := by
  unfold MainApp.skillsSection mainSkillsSpec
  rw [dictGet_root_skills]
  cases h : cv.skills with
  | none => rfl
  | some l =>
    cases l with
    | nil => rfl
    | cons x xs => simp [truthy, strArr, asArr, joinPy_cons_str]

theorem mainProjectsSection_typed (cv : CVData) :
    MainApp.projectsSection cv.rootFields = .ok (mainProjectsSpec cv) := by
  unfold MainApp.projectsSection mainProjectsSpec
  rw [dictGet_root_projects]
  cases h : cv.projects with
  | none => rfl
  | some ps =>
    cases ps with
    | nil => rfl
    | cons p rest =>
      simp [truthy, asArr,
        forEachJ_cons_map MainApp.projectBlocks Project.toJVal
          (fun pr =>
            [Block.para ("<b>" ++ pr.name.getD "Project" ++ "</b>") .heading3] ++
            (optNE pr.description).map (fun d => Block.para d .normal) ++
            [Block.spacer 1 8])
          mainProjectBlocks_typed]

/-- Shared refinement lemma: on every embedded typed CVRecord the reduced
renderer of src/main.py succeeds and produces exactly claim C9's block
sequence. -/
theorem main_generatepdf_spec (cv : CVData) :
    MainApp.generatepdf cv.toJVal = .ok (mainSpecRender cv) := by
  unfold MainApp.generatepdf mainSpecRender
  simp only [CVData.toJVal, asObj, pyBind_ok]
  rw [mainHeaderBlocks_typed, mainSummarySection_typed, mainSkillsSection_typed,
      mainProjectsSection_typed]
  simp

/-! The completion-reply cleanup, as claim C5 words it, for comparison with
the source's `cleanReply`. -/

/-- The cleanup as claim C5 reads: trim, remove a leading literal
three-backticks-json marker OR, only failing that, a leading
three-backticks, then remove a trailing three-backticks, trim again.  (The
source instead runs the two leading checks one after the other, so both can
fire on the same reply.) -/
def cleanReplyClaimed (respText : String) : String :=
  let clean0 := pyStrip respText
  let clean1 :=
    if pyStartsWith clean0 "```json" then pyDropLeft clean0 7
    else if pyStartsWith clean0 "```" then pyDropLeft clean0 3
    else clean0
  let clean2 := if pyEndsWith clean1 "```" then pyDropRight clean1 3 else clean1
  pyStrip clean2

/-- The cleanup as the amended claim reads: trim, remove a leading literal
three-backticks-json marker, then remove a leading three-backticks if the
(possibly already shortened) reply still starts with one, remove a trailing
three-backticks, trim again. -/
def cleanReplyAmended (respText : String) : String :=
  let clean0 := pyStrip respText
  let clean1 := if pyStartsWith clean0 "```json" then pyDropLeft clean0 7 else clean0
  let clean2 := if pyStartsWith clean1 "```" then pyDropLeft clean1 3 else clean1
  let clean3 := if pyEndsWith clean2 "```" then pyDropRight clean2 3 else clean2
  pyStrip clean3

theorem strData_append (a b : String) : (a ++ b).data = a.data ++ b.data := rfl

/-- The generic wrapped-reply case of the cleanup: when the inner text does
not itself lead with a fence, stripping a three-backticks-json wrapper
yields exactly the trimmed inner text. -/
theorem cleanReply_wrapped (inner : String)
    (h : pyStartsWith (inner ++ "```") "```" = false) :
    cleanReply ("```json" ++ inner ++ "```") = pyStrip inner := by
  obtain ⟨l⟩ := inner
  have hdata : ("```json" ++ String.mk l ++ "```").data =
      '`' :: '`' :: '`' :: 'j' :: 's' :: 'o' :: 'n' :: (l ++ ['`', '`', '`']) := by
    simp [strData_append]
  have hyp : pyStartsWith (String.mk (l ++ ['`', '`', '`'])) "```" = false := by
    simpa [pyStartsWith, strData_append] using h
  unfold cleanReply
  have hstrip0 : pyStrip ("```json" ++ String.mk l ++ "```") =
      String.mk ('`' :: '`' :: '`' :: 'j' :: 's' :: 'o' :: 'n' :: (l ++ ['`', '`', '`'])) := by
    unfold pyStrip
    rw [hdata]
    simp [List.dropWhile_cons, List.reverse_append]
  rw [hstrip0]
  have hpre : pyStartsWith
      (String.mk ('`' :: '`' :: '`' :: 'j' :: 's' :: 'o' :: 'n' :: (l ++ ['`', '`', '`'])))
      "```json" = true := by
    simp [pyStartsWith, List.isPrefixOf]
  have hdrop : pyDropLeft
      (String.mk ('`' :: '`' :: '`' :: 'j' :: 's' :: 'o' :: 'n' :: (l ++ ['`', '`', '`']))) 7 =
      String.mk (l ++ ['`', '`', '`']) := by
    simp [pyDropLeft]
  have hsuf : pyEndsWith (String.mk (l ++ ['`', '`', '`'])) "```" = true := by
    simp [pyEndsWith, List.isSuffixOf, List.reverse_append, List.isPrefixOf]
  have hdropR : pyDropRight (String.mk (l ++ ['`', '`', '`'])) 3 = String.mk l := by
    simp [pyDropRight, List.take_left']
  simp [hpre, hdrop, hyp, hsuf, hdropR]

/-- Translation of `process_cv_data` (src/genpdf/pdf_api.py lines 76-98):
parse the submitted JSON string (the parser is the external `json.loads`,
passed in), store the result wholesale under the fixed session key, and
report the stored field names.  A malformed string is a 400; a parsed
non-object is stored first and only then raises on `.keys()` (a 500), so
the store is mutated even on that failure.  Returned with the store it
leaves behind. -/
def PdfApi.process_cv_data (parseJson : String → Except MainApp.ParseError JVal)
    (st : PdfApi.Store) (cv_data : String) :
    PdfApi.ApiResult (List String) × PdfApi.Store :=
  match parseJson cv_data with
  | .error e => (.error (400, "Invalid JSON format: " ++ e.msg), st)
  | .ok cv_json =>
    let st' := PdfApi.storePut st "default" cv_json
    match cv_json with
    | .obj fields => (.ok (fields.map (fun kv => kv.1)), st')
    | _ => (.error (500, "Processing error: AttributeError"), st')

/-! Session-store lemmas. -/

theorem storeGet_put (st : PdfApi.Store) (sid : String) (cv : JVal) :
    PdfApi.storeGet (PdfApi.storePut st sid cv) sid = some cv := by
  simp [PdfApi.storeGet, PdfApi.storePut]

/-- Submitting an embedded typed record through process_cv_data succeeds
and stores it under the fixed session key. -/
theorem process_cv_data_ok (parseJson : String → Except MainApp.ParseError JVal)
    (st : PdfApi.Store) (raw : String) (cv : CVData)
    (h : parseJson raw = .ok cv.toJVal) :
    PdfApi.process_cv_data parseJson st raw =
      (.ok (cv.rootFields.map (fun kv => kv.1)),
        PdfApi.storePut st "default" cv.toJVal) := by
  simp [PdfApi.process_cv_data, h, CVData.toJVal]

/-- Reading a field just after storing an embedded record returns its
binding in the record's JSON object, or the endpoint's default. -/
theorem get_field_put (f : String) (d : JVal) (st : PdfApi.Store) (sid : String)
    (cv : CVData) :
    PdfApi.get_field f d (PdfApi.storePut st sid cv.toJVal) sid =
      .ok ⟨f, dictGet cv.rootFields f d⟩ := by
  simp [PdfApi.get_field, storeGet_put, CVData.toJVal]

end PortfolioCV


namespace PortfolioCV

/-! The claims. -/

/-- Claim C1: for every CVRecord, the Document Renderer of
src/pdf_generator.py emits its presentational blocks in the fixed order
Header, Professional Summary, Skills, Projects, Work Experience, Education,
then the additional sections (certifications, awards, languages,
publications, volunteer, conferences, memberships) in that fixed order;
each block only when its driving field is non-empty; languages and
certifications comma-joined on one line, the other additional sections one
bullet per item; no heading for an absent or empty field.  `specRender`
spells out exactly that block sequence. -/
theorem claim_C1_renderer_fixed_order (cv : CVData) :
    PdfGenerator.generatepdf cv.toJVal = .ok (specRender cv) :=
  generatepdf_spec cv

/-- Claim C2: rendering never raises because of an absent field — on every
CVRecord (each of whose fields, and each of whose entries' sub-fields, is
independently optional) both renderers reach the end of block assembly,
never the error branch. -/
theorem claim_C2_rendering_total_on_missing (cv : CVData) :
    (∃ bs, PdfGenerator.generatepdf cv.toJVal = Except.ok bs) ∧
    (∃ bs, MainApp.generatepdf cv.toJVal = Except.ok bs) :=
  ⟨⟨specRender cv, generatepdf_spec cv⟩, ⟨mainSpecRender cv, main_generatepdf_spec cv⟩⟩

/-- Claim C3: the CVRecord with every optional field absent renders to a
document holding only the fallback title "CV" and one spacer — no section
headings, no other text. -/
theorem claim_C3_empty_record_renders_title_only :
    PdfGenerator.generatepdf emptyCV.toJVal =
      .ok [Block.para "CV" .nameStyle, Block.spacer 1 12] := rfl

/-- Claim C5, counterexample: the claim reads the two leading-fence
removals as alternatives ("or, failing that"), but the source runs them in
sequence, so on a reply starting with both markers the code strips ten
leading characters where the claim strips seven: the claimed description
and the code disagree on the reply three-backticks-json-three-backticks-x. -/
theorem claim_C5_counterexample :
    cleanReply "```json```x" = "x" ∧ cleanReplyClaimed "```json```x" = "```x" ∧
    ("x" : String) ≠ "```x" :=
  ⟨by decide, by decide, by decide⟩

/-- Claim C5 as amended: the cleanup trims, removes a leading literal
three-backticks-json, then removes a further leading three-backticks if one
remains (also when the first removal already fired), removes a trailing
three-backticks, and trims again; in particular a reply wrapped as
three-backticks-json ... three-backticks whose inner text does not itself
lead with a fence extracts to the inner text trimmed. -/
theorem claim_C5_cleanup_amended :
    (∀ s, cleanReply s = cleanReplyAmended s) ∧
    (∀ inner : String, pyStartsWith (inner ++ "```") "```" = false →
      cleanReply ("```json" ++ inner ++ "```") = pyStrip inner) :=
  ⟨fun _ => rfl, cleanReply_wrapped⟩

theorem claim_C5_cleanup_amended_witness :
    pyStartsWith (" [1, 2] " ++ "```") "```" = false ∧
    cleanReply ("```json" ++ " [1, 2] " ++ "```") = pyStrip " [1, 2] " :=
  ⟨by decide, claim_C5_cleanup_amended.2 " [1, 2] " (by decide)⟩

/-- Claim C6: storing a CVRecord in the Session Store and reading any field
back through its accessor endpoint returns exactly the stored value, or the
documented type-appropriate empty default (empty mapping for
personal_information, empty string for professional_summary, empty sequence
for every list field) when the field was never set; no accessor raises for
an absent field. -/
theorem claim_C6_field_accessor_roundtrip (st : PdfApi.Store) (sid : String) (cv : CVData) :
    PdfApi.get_personal_information (PdfApi.storePut st sid cv.toJVal) sid =
      .ok ⟨"personal_information",
        match cv.personal_information with
        | some p => p.toJVal
        | none => .obj []⟩ ∧
    PdfApi.get_professional_summary (PdfApi.storePut st sid cv.toJVal) sid =
      .ok ⟨"professional_summary",
        match cv.professional_summary with
        | some s => .str s
        | none => .str ""⟩ ∧
    PdfApi.get_education (PdfApi.storePut st sid cv.toJVal) sid =
      .ok ⟨"education",
        match cv.education with
        | some l => .arr (l.map Education.toJVal)
        | none => .arr []⟩ ∧
    PdfApi.get_work_experience (PdfApi.storePut st sid cv.toJVal) sid =
      .ok ⟨"work_experience",
        match cv.work_experience with
        | some l => .arr (l.map WorkExperience.toJVal)
        | none => .arr []⟩ ∧
    PdfApi.get_skills (PdfApi.storePut st sid cv.toJVal) sid =
      .ok ⟨"skills",
        match cv.skills with
        | some l => strArr l
        | none => .arr []⟩ ∧
    PdfApi.get_projects (PdfApi.storePut st sid cv.toJVal) sid =
      .ok ⟨"projects",
        match cv.projects with
        | some l => .arr (l.map Project.toJVal)
        | none => .arr []⟩ ∧
    PdfApi.get_certifications (PdfApi.storePut st sid cv.toJVal) sid =
      .ok ⟨"certifications",
        match cv.certifications with
        | some l => strArr l
        | none => .arr []⟩ ∧
    PdfApi.get_publications (PdfApi.storePut st sid cv.toJVal) sid =
      .ok ⟨"publications",
        match cv.publications with
        | some l => strArr l
        | none => .arr []⟩ ∧
    PdfApi.get_awards (PdfApi.storePut st sid cv.toJVal) sid =
      .ok ⟨"awards",
        match cv.awards with
        | some l => strArr l
        | none => .arr []⟩ ∧
    PdfApi.get_languages (PdfApi.storePut st sid cv.toJVal) sid =
      .ok ⟨"languages",
        match cv.languages with
        | some l => strArr l
        | none => .arr []⟩ ∧
    PdfApi.get_volunteer (PdfApi.storePut st sid cv.toJVal) sid =
      .ok ⟨"volunteer",
        match cv.volunteer with
        | some l => strArr l
        | none => .arr []⟩ ∧
    PdfApi.get_conferences (PdfApi.storePut st sid cv.toJVal) sid =
      .ok ⟨"conferences",
        match cv.conferences with
        | some l => strArr l
        | none => .arr []⟩ ∧
    PdfApi.get_memberships (PdfApi.storePut st sid cv.toJVal) sid =
      .ok ⟨"memberships",
        match cv.memberships with
        | some l => strArr l
        | none => .arr []⟩ ∧
    PdfApi.get_references (PdfApi.storePut st sid cv.toJVal) sid =
      .ok ⟨"references",
        match cv.references with
        | some l => strArr l
        | none => .arr []⟩ := by
  refine ⟨?_, ?_, ?_, ?_, ?_, ?_, ?_, ?_, ?_, ?_, ?_, ?_, ?_, ?_⟩
  · unfold PdfApi.get_personal_information
    rw [get_field_put, dictGet_root_personal_information]
    cases cv.personal_information <;> rfl
  · unfold PdfApi.get_professional_summary
    rw [get_field_put, dictGet_root_professional_summary]
    cases cv.professional_summary <;> rfl
  · unfold PdfApi.get_education
    rw [get_field_put, dictGet_root_education]
    cases cv.education <;> rfl
  · unfold PdfApi.get_work_experience
    rw [get_field_put, dictGet_root_work_experience]
    cases cv.work_experience <;> rfl
  · unfold PdfApi.get_skills
    rw [get_field_put, dictGet_root_skills]
    cases cv.skills <;> rfl
  · unfold PdfApi.get_projects
    rw [get_field_put, dictGet_root_projects]
    cases cv.projects <;> rfl
  · unfold PdfApi.get_certifications
    rw [get_field_put, dictGet_root_certifications]
    cases cv.certifications <;> rfl
  · unfold PdfApi.get_publications
    rw [get_field_put, dictGet_root_publications]
    cases cv.publications <;> rfl
  · unfold PdfApi.get_awards
    rw [get_field_put, dictGet_root_awards]
    cases cv.awards <;> rfl
  · unfold PdfApi.get_languages
    rw [get_field_put, dictGet_root_languages]
    cases cv.languages <;> rfl
  · unfold PdfApi.get_volunteer
    rw [get_field_put, dictGet_root_volunteer]
    cases cv.volunteer <;> rfl
  · unfold PdfApi.get_conferences
    rw [get_field_put, dictGet_root_conferences]
    cases cv.conferences <;> rfl
  · unfold PdfApi.get_memberships
    rw [get_field_put, dictGet_root_memberships]
    cases cv.memberships <;> rfl
  · unfold PdfApi.get_references
    rw [get_field_put, dictGet_root_references]
    cases cv.references <;> rfl

/-- Claim C7: when the completion reply fails to parse as JSON, the scrape
operation returns the HTTP-200 parse-failed body carrying the raw
completion text and the numeric parse-error offset — not a server error —
and leaves the Session Store exactly as it was. -/
theorem claim_C7_parse_failure_graceful
    (parseJson : String → Except MainApp.ParseError JVal)
    (st : PdfApi.Store) (respText format : String) (e : MainApp.ParseError)
    (h : parseJson (cleanReply respText) = .error e) :
    MainApp.handleReply parseJson st respText format =
      (.parseFailed "CV data extracted but parsing failed" e.msg respText e.pos, st) := by
  unfold MainApp.handleReply
  simp only [h]

theorem claim_C7_parse_failure_graceful_witness :
    MainApp.handleReply (fun _ => .error ⟨"Expecting value", 5⟩) [] "raw text" "json" =
      (.parseFailed "CV data extracted but parsing failed" "Expecting value" "raw text" 5,
        []) :=
  claim_C7_parse_failure_graceful (fun _ => .error ⟨"Expecting value", 5⟩) [] "raw text"
    "json" ⟨"Expecting value", 5⟩ rfl

/-- Claim C8: every field-read endpoint answers a session key that was
never written with the 404 not-found condition, never an empty-default
success; and a success response implies an entry exists under the key. -/
theorem claim_C8_unwritten_key_not_found (st : PdfApi.Store) (sid : String) :
    (PdfApi.storeGet st sid = none →
      (∀ fieldName dflt, PdfApi.get_field fieldName dflt st sid =
        .error (404, "CV data not found. Please process CV data first.")) ∧
      PdfApi.get_all_cv_fields st sid =
        .error (404, "CV data not found. Please process CV data first.")) ∧
    (∀ fieldName dflt r, PdfApi.get_field fieldName dflt st sid = .ok r →
      ∃ cv, PdfApi.storeGet st sid = some cv) := by
  constructor
  · intro h
    constructor
    · intro fieldName dflt
      simp [PdfApi.get_field, h]
    · simp [PdfApi.get_all_cv_fields, h]
  · intro fieldName dflt r hok
    unfold PdfApi.get_field at hok
    cases hst : PdfApi.storeGet st sid with
    | none => rw [hst] at hok; simp at hok
    | some cv => exact ⟨cv, rfl⟩

theorem claim_C8_unwritten_key_not_found_witness :
    PdfApi.get_field "skills" (.arr []) [] "default" =
      .error (404, "CV data not found. Please process CV data first.") ∧
    (∃ cv, PdfApi.storeGet [("default", JVal.obj [])] "default" = some cv) :=
  ⟨((claim_C8_unwritten_key_not_found [] "default").1 rfl).1 "skills" (.arr []),
   (claim_C8_unwritten_key_not_found [("default", JVal.obj [])] "default").2
     "skills" (.arr []) ⟨"skills", .arr []⟩ rfl⟩

/-- Claim C9: the renderer the /scrape endpoint actually invokes for PDF
output — the `generatepdf` defined in src/main.py — emits only the name
title, email line, phone line, Professional Summary, Skills joined with a
bullet separator, and Projects with name and description only;
`mainSpecRender` spells out exactly that block sequence, mentioning no
other field, so work experience, education, technologies, links and the
additional sections are never emitted even when non-empty. -/
theorem claim_C9_reduced_renderer (cv : CVData) :
    MainApp.generatepdf cv.toJVal = .ok (mainSpecRender cv) :=
  main_generatepdf_spec cv

/-- Claim C10: the references field is never rendered by either renderer —
erasing it never changes the output — although it is stored by the Session
Store and readable through its own accessor endpoint. -/
theorem claim_C10_references_never_rendered (cv : CVData) (st : PdfApi.Store)
    (sid : String) :
    PdfGenerator.generatepdf cv.toJVal =
      PdfGenerator.generatepdf ({ cv with references := none } : CVData).toJVal ∧
    MainApp.generatepdf cv.toJVal =
      MainApp.generatepdf ({ cv with references := none } : CVData).toJVal ∧
    PdfApi.get_references (PdfApi.storePut st sid cv.toJVal) sid =
      .ok ⟨"references",
        match cv.references with
        | some refs => strArr refs
        | none => .arr []⟩ := by
  refine ⟨?_, ?_, ?_⟩
  · rw [generatepdf_spec, generatepdf_spec]
    exact rfl
  · rw [main_generatepdf_spec, main_generatepdf_spec]
    exact rfl
  · unfold PdfApi.get_references
    rw [get_field_put, dictGet_root_references]
    cases cv.references <;> rfl

end PortfolioCV
